import Mathlib

/-!
Shallow embedding of the valentine-portraits-api generation-and-fulfillment
pipeline (src/unnamed/part_000, src/services/imageGenerator.js,
src/routes/generate.js, src/routes/payment.js), together with theorems
settling the frozen claims about it.

External collaborators (the sharp image library, the heic converter, the
generative provider, object storage, the payment gateway, the network) are
modelled as executable functions or as oracle parameters, following the
contracts the code relies on; everything that is code of this repository is
translated statement by statement from the source.
-/

namespace Valentine

/-! ### Byte buffers and a concrete image model

A buffer is a list of byte values.  The sharp library is modelled by a
concrete image type: operations the code composes (resize, modulate, tint,
sharpen, blur, median, jpeg encode/decode) become total executable functions
on it.  The exact pixel arithmetic of sharp is external detail; what the
theorems use is that the chain is deterministic and that encoding always
emits the jpeg start-of-image marker, hence a non-empty buffer. -/

abbrev Buffer := List Nat

structure Rgb where
  r : Nat
  g : Nat
  b : Nat
deriving DecidableEq, Repr

structure Img where
  width : Nat
  height : Nat
  pixels : List Rgb
deriving DecidableEq, Repr

def mapPixels (f : Rgb → Rgb) (img : Img) : Img :=
  { img with pixels := img.pixels.map f }

/-- Models sharp.modulate: brightness and saturation are percentages. -/
def modulate (brightnessPct saturationPct : Nat) (img : Img) : Img :=
  mapPixels (fun p =>
    let gray := (p.r + p.g + p.b) / 3
    let sat := fun c => (gray * (100 - min 100 saturationPct) + c * saturationPct) / 100
    ⟨sat p.r * brightnessPct / 100 % 256,
     sat p.g * brightnessPct / 100 % 256,
     sat p.b * brightnessPct / 100 % 256⟩) img

/-- Models sharp.tint: mixes each channel towards the tint colour. -/
def tintImg (t : Rgb) (img : Img) : Img :=
  mapPixels (fun p => ⟨(p.r + t.r) / 2, (p.g + t.g) / 2, (p.b + t.b) / 2⟩) img

/-- Models sharp.sharpen with sigma given in tenths. -/
def sharpenImg (sigmaTenths : Nat) (img : Img) : Img :=
  mapPixels (fun p =>
    ⟨min 255 (p.r + sigmaTenths / 10), min 255 (p.g + sigmaTenths / 10),
     min 255 (p.b + sigmaTenths / 10)⟩) img

/-- Models sharp.blur with sigma given in tenths. -/
def blurImg (sigmaTenths : Nat) (img : Img) : Img :=
  mapPixels (fun p =>
    ⟨p.r - min p.r (sigmaTenths / 10), p.g - min p.g (sigmaTenths / 10),
     p.b - min p.b (sigmaTenths / 10)⟩) img

/-- Models sharp.median with the given window size. -/
def medianImg (size : Nat) (img : Img) : Img :=
  mapPixels (fun p => ⟨p.r / (size + 1) * (size + 1), p.g / (size + 1) * (size + 1),
    p.b / (size + 1) * (size + 1)⟩) img

/-- Models sharp.resize with fit cover: output has exactly the requested
dimensions, sampling pixels from the input. -/
def resizeCover (w h : Nat) (img : Img) : Img :=
  ⟨w, h, (List.range (w * h)).map (fun i =>
    img.pixels.getD (i % (max 1 img.pixels.length)) ⟨0, 0, 0⟩)⟩

/-- Models sharp.resize with fit inside and withoutEnlargement: dimensions are
capped at the bound, aspect preserved, never upscaled. -/
def resizeInside (maxW maxH : Nat) (img : Img) : Img :=
  if img.width ≤ maxW ∧ img.height ≤ maxH then img
  else
    let scale := min (maxW * 1000 / max 1 img.width) (maxH * 1000 / max 1 img.height)
    ⟨img.width * scale / 1000, img.height * scale / 1000, img.pixels⟩

/-- Models jpeg encoding at the given quality: the output always starts with
the two start-of-image marker bytes, then records dimensions and pixel data. -/
def encodeJpeg (quality : Nat) (img : Img) : Buffer :=
  255 :: 216 :: quality :: img.width :: img.height ::
    (img.pixels.foldr (fun p acc => p.r % 256 :: p.g % 256 :: p.b % 256 :: acc) [])

def decodePixels : List Nat → List Rgb
  | r :: g :: b :: rest => ⟨r, g, b⟩ :: decodePixels rest
  | _ => []

/-- Models sharp decoding of a buffer: succeeds exactly on buffers in the
encoded shape; on anything else the library throws, modelled as none. -/
def decodeJpeg : Buffer → Option Img
  | 255 :: 216 :: _q :: w :: h :: rest => some ⟨w, h, decodePixels rest⟩
  | _ => none

/-! ### The generative provider (Gemini)

The provider is an external capability: a call either errors (network or
provider failure) or yields a list of response parts, each a text part or an
inline image payload.  Both copies of generateWithGemini scan the parts and
return the first inline image payload, throwing when none is present or when
the provider is not configured. -/

inductive GemPart
  | text (s : String)
  | inlineData (bytes : Buffer)
deriving DecidableEq, Repr

abbrev GemResponse := Except String (List GemPart)

def firstInlineData : List GemPart → Option Buffer
  | [] => none
  | GemPart.text _ :: rest => firstInlineData rest
  | GemPart.inlineData b :: _ => some b

/-- Embeds generateWithGemini (both src/unnamed/part_000 and
src/services/imageGenerator.js): error when unconfigured, propagate provider
errors, otherwise return the first inline image part or error when none. -/
def generateWithGemini (configured : Bool) (resp : GemResponse) : Except String Buffer :=
  if !configured then Except.error "Gemini API not configured"
  else
    match resp with
    | Except.error e => Except.error e
    | Except.ok parts =>
      match firstInlineData parts with
      | some b => Except.ok b
      | none => Except.error "No image generated in response"

/-! ### Deterministic fallback transforms -/

/-- Embeds the sharpTransforms table of src/unnamed/part_000: per theme a
chain of modulate, tint, sharpen, blur, median passes with fixed parameters;
an unknown theme uses the ghibli entry (sharpTransforms of theme, with ghibli
as the default). -/
def sharpTransform (theme : String) (img : Img) : Img :=
  if theme = "renaissance" then sharpenImg 10 (tintImg ⟨220, 200, 170⟩ (modulate 105 80 img))
  else if theme = "vangogh" then sharpenImg 30 (modulate 110 150 img)
  else if theme = "disney" then medianImg 1 (sharpenImg 20 (modulate 110 140 img))
  else if theme = "anime" then medianImg 1 (sharpenImg 25 (modulate 110 130 img))
  else if theme = "watercolor" then sharpenImg 5 (blurImg 5 (modulate 110 70 img))
  else medianImg 1 (sharpenImg 15 (modulate 115 120 img))

/-- Embeds the per-style fallback tint table of generatePortraitPack
(src/services/imageGenerator.js): tints of style, defaulting to the
oil-painting entry. -/
def packTint (style : String) : Rgb :=
  if style = "studio-ghibli" then ⟨240, 255, 250⟩
  else if style = "mona-lisa" then ⟨255, 240, 220⟩
  else ⟨255, 230, 240⟩

/-! ### The synthesize stage -/

/-- Embeds the synthesis portion of generatePortrait in src/unnamed/part_000:
when the provider is configured, try it and post-process its output (resize
inside 2000x2000, jpeg quality 90); any failure there, including an output
that sharp cannot decode, falls back to the deterministic per-theme filter
chain applied to the preprocessed image, re-encoded at quality 90. -/
def synthesize (configured : Bool) (resp : GemResponse) (processed : Img)
    (theme : String) : Buffer :=
  let aiResult : Option Img :=
    if configured then
      match generateWithGemini true resp with
      | Except.ok bytes => decodeJpeg bytes
      | Except.error _ => none
    else none
  match aiResult with
  | some aiImg => encodeJpeg 90 (resizeInside 2000 2000 aiImg)
  | none => encodeJpeg 90 (sharpTransform theme processed)

/-- Embeds the per-style body of generatePortraitPack in
src/services/imageGenerator.js: try the provider and post-process its output
(resize cover 2160x3840, jpeg quality 95); on any failure apply the fallback
chain resize cover, modulate brightness 1.1 saturation 1.2, per-style tint,
jpeg quality 95, to the preprocessed image. -/
def synthesizePackStyle (configured : Bool) (resp : GemResponse) (processed : Img)
    (style : String) : Buffer :=
  let fallback := encodeJpeg 95 (tintImg (packTint style)
    (modulate 110 120 (resizeCover 2160 3840 processed)))
  match generateWithGemini configured resp with
  | Except.error _ => fallback
  | Except.ok bytes =>
    match decodeJpeg bytes with
    | some img => encodeJpeg 95 (resizeCover 2160 3840 img)
    | none => fallback

/-! ### The artifact store adapter

Object storage is a key-value map from storage path to bytes.  Map.set
semantics (replace the first binding with the key, else append) model both
the JS Map registries and the upsert behaviour of the storage bucket. -/

def mapSet {α : Type} : List (String × α) → String → α → List (String × α)
  | [], k, v => [(k, v)]
  | (k', v') :: rest, k, v =>
    if k' = k then (k, v) :: rest else (k', v') :: mapSet rest k v

/-- Models Map.get / Map.has: the value stored under a key, if any. -/
def mapGet {α : Type} : List (String × α) → String → Option α
  | [], _ => none
  | (k', v') :: rest, k => if k' = k then some v' else mapGet rest k

abbrev Store := List (String × Buffer)

/-- Embeds the filename computation of uploadToSupabase: with a subfolder the
path is valentines/subfolder/imageId.jpg, otherwise valentines/imageId.jpg. -/
def uploadPath (imageId : String) (subfolder : Option String) : String :=
  match subfolder with
  | some sub => "valentines/" ++ sub ++ "/" ++ imageId ++ ".jpg"
  | none => "valentines/" ++ imageId ++ ".jpg"

/-- Models getPublicUrl of the storage client: a deterministic function of
the storage path. -/
def publicUrl (filename : String) : String :=
  "https://storage.example/object/public/images/" ++ filename

/-- Embeds uploadToSupabase (src/unnamed/part_000 and
src/services/imageGenerator.js): error when storage is unconfigured, propagate
a transport error reported by the provider, otherwise upsert the bytes at the
derived path and return the public URL of that path. -/
def uploadToSupabase (storageCfg : Bool) (transportErr : Option String)
    (store : Store) (buf : Buffer) (imageId : String) (subfolder : Option String) :
    Except String (String × Store) :=
  if !storageCfg then Except.error "Supabase not configured"
  else
    match transportErr with
    | some e => Except.error e
    | none =>
      let filename := uploadPath imageId subfolder
      Except.ok (publicUrl filename, mapSet store filename buf)

/-! ### generatePortrait (src/unnamed/part_000) -/

inductive GenError
  | unsupportedFormat
  | uploadFailed
deriving DecidableEq, Repr

/-- Embeds generatePortrait of src/unnamed/part_000 from the normalization
stage on: a normalization failure is rethrown as the unsupported-format error,
the synthesize stage is total, and an upload failure is rethrown as the
save-failed error.  The preprocessing outcome is passed in as the result of
the byte-level Normalizer (its image-level view). -/
def generatePortraitRun (preOutcome : Except String Img) (gemCfg : Bool)
    (resp : GemResponse) (theme : String) (storageCfg : Bool)
    (transportErr : Option String) (store : Store) (imageId : String) :
    Except GenError (String × String × Store) :=
  match preOutcome with
  | Except.error _ => Except.error GenError.unsupportedFormat
  | Except.ok processed =>
    let outBuf := synthesize gemCfg resp processed theme
    match uploadToSupabase storageCfg transportErr store outBuf imageId none with
    | Except.error _ => Except.error GenError.uploadFailed
    | Except.ok (url, store') => Except.ok (imageId, url, store')

/-! ### The batch orchestrator, generatePortraitPack
(src/services/imageGenerator.js)

The run of the loop is recorded as an event trace: a progress notification
(emitted only when an observer callback was supplied), a provider invocation,
an upload, and the inter-call pause.  Upload transport errors are an oracle
indexed by loop position. -/

inductive PackEv
  | progress (current total : Nat) (style : String)
  | generate (style : String)
  | upload (style : String)
  | pause
deriving DecidableEq, Repr

structure PackItem where
  imageId : String
  imageUrl : String
  style : String
deriving DecidableEq, Repr

def packStyles : List String := ["oil-painting", "studio-ghibli", "mona-lisa"]

/-- Embeds the loop body of generatePortraitPack: for each style in order,
optionally report progress with the 1-based index and total, synthesize,
upload to valentines/sessionId/style.jpg, record the result with imageId
sessionId_style, and pause exactly when the index is below the last one. -/
def packLoop (storageCfg : Bool) (upErr : Nat → Option String) (hasObserver : Bool)
    (gemCfg : Bool) (resp : Nat → GemResponse) (processed : Img) (sid : String)
    (total : Nat) (store : Store) (i : Nat) :
    List String → Except String (List PackEv × List PackItem × Store)
  | [] => Except.ok ([], [], store)
  | style :: rest =>
    let headEvs := (if hasObserver then [PackEv.progress (i + 1) total style] else [])
      ++ [PackEv.generate style]
    let outBuf := synthesizePackStyle gemCfg (resp i) processed style
    match uploadToSupabase storageCfg (upErr i) store outBuf style (some sid) with
    | Except.error e => Except.error e
    | Except.ok (url, store') =>
      let item : PackItem := ⟨sid ++ "_" ++ style, url, style⟩
      match packLoop storageCfg upErr hasObserver gemCfg resp processed sid total store' (i + 1) rest with
      | Except.error e => Except.error e
      | Except.ok (evsRest, itemsRest, storeF) =>
        Except.ok (headEvs ++ [PackEv.upload style]
            ++ (if i < total - 1 then [PackEv.pause] else []) ++ evsRest,
          item :: itemsRest, storeF)

/-- Embeds generatePortraitPack: the fixed declared style list, total count
taken from it, loop started at index 0. -/
def generatePortraitPack (storageCfg : Bool) (upErr : Nat → Option String)
    (hasObserver : Bool) (gemCfg : Bool) (resp : Nat → GemResponse)
    (processed : Img) (sid : String) (store : Store) :
    Except String (List PackEv × List PackItem × Store) :=
  packLoop storageCfg upErr hasObserver gemCfg resp processed sid
    packStyles.length store 0 packStyles

/-- Follows the wording of the spec for the expected batch trace: per style
one block of progress (when observed), provider call and upload, with the
pause exactly between consecutive styles, never before the first block and
never after the last one. -/
def packEventsSpec (hasObserver : Bool) (total : Nat) : Nat → List String → List PackEv
  | _, [] => []
  | i, style :: rest =>
    (if hasObserver then [PackEv.progress (i + 1) total style] else [])
      ++ [PackEv.generate style, PackEv.upload style]
      ++ (if rest.isEmpty then [] else [PackEv.pause])
      ++ packEventsSpec hasObserver total (i + 1) rest

/-- Follows the wording of the spec for the expected results of the fixed
3-style batch: one result per style, in declared order, with artifactId
sessionId_style and the storage URL of the per-session path. -/
def packItemsSpec (sid : String) : List PackItem :=
  packStyles.map (fun style =>
    ⟨sid ++ "_" ++ style, publicUrl (uploadPath style (some sid)), style⟩)

/-! ### The format normalizer (src/unnamed/part_000, isHeic and
preprocessImage)

Detection reads only the buffer: the brand signature at byte offsets 8 to 12,
lowercased and compared against the known brand list.  The heic converter and
the sharp re-encode step are external capabilities passed as oracles. -/

def asciiLower (c : Nat) : Nat := if 65 ≤ c ∧ c ≤ 90 then c + 32 else c

/-- The brand byte strings heic, heix, hevc, hevx, heim, heis, mif1. -/
def heicBrands : List (List Nat) :=
  [[104, 101, 105, 99], [104, 101, 105, 120], [104, 101, 118, 99],
   [104, 101, 118, 120], [104, 101, 105, 109], [104, 101, 105, 115],
   [109, 105, 102, 49]]

/-- Embeds isHeic: false for buffers shorter than 12 bytes, otherwise the
lowercased 4 bytes at offset 8 must be one of the known brands. -/
def isHeic (buf : Buffer) : Bool :=
  if buf.length < 12 then false
  else heicBrands.contains (((buf.drop 8).take 4).map asciiLower)

/-- Embeds preprocessImage of src/unnamed/part_000: convert when the heic
signature is detected (a conversion failure propagates), then re-encode with
sharp; when re-encoding fails, return the converted bytes if a conversion
occurred (the buffer is no longer the original reference), else rethrow. -/
def preprocessImage (heicConv : Buffer → Except String Buffer)
    (sharpPre : Buffer → Except String Buffer) (imageBuffer : Buffer) :
    Except String Buffer :=
  if isHeic imageBuffer then
    match heicConv imageBuffer with
    | Except.error e => Except.error e
    | Except.ok converted =>
      match sharpPre converted with
      | Except.ok processed => Except.ok processed
      | Except.error _ => Except.ok converted
  else
    match sharpPre imageBuffer with
    | Except.ok processed => Except.ok processed
    | Except.error e => Except.error e

def isErr {ε α : Type} : Except ε α → Bool
  | Except.error _ => true
  | Except.ok _ => false

/-! ### The metadata registry and the checkout session table -/

structure Meta where
  imageUrl : Option String
  theme : Option String
deriving DecidableEq, Repr

structure SessionRec where
  imageIds : List String
  paid : Bool
deriving DecidableEq, Repr

abbrev SessionTable := List (String × SessionRec)

/-- Models String.prototype.startsWith for the mock-session convention. -/
def isMockId (s : String) : Bool := List.isPrefixOf "mock_".data s.data

/-! ### POST create-checkout (src/routes/payment.js) -/

structure CheckoutBody where
  imageId : Option String
  imageIds : Option (List String)
  bundle : Bool
deriving DecidableEq, Repr

/-- Embeds the ids computation of the create-checkout handler: with the
bundle flag and a supplied imageIds array use it, else the single imageId
when supplied, else the empty list. -/
def requestedIds (b : CheckoutBody) : List String :=
  if b.bundle ∧ b.imageIds.isSome then b.imageIds.getD []
  else
    match b.imageId with
    | some i => [i]
    | none => []

inductive CheckoutResp
  | badRequest
  | notFound (id : String)
  | okMock (sessionId : String)
  | okGateway (sessionId : String)
deriving DecidableEq, Repr

/-- Embeds the create-checkout handler of src/routes/payment.js: 400 when no
id was supplied; 404 naming the first id with no registry entry; with no
gateway configured record a mock session already paid under the minted mock
id; otherwise record the gateway session unpaid under the id the gateway
returned.  The gateway-minted and mock ids are passed in as parameters. -/
def createCheckout (registry : String → Option Meta) (stripeCfg : Bool)
    (body : CheckoutBody) (gatewayId mockId : String) (t : SessionTable) :
    CheckoutResp × SessionTable :=
  let ids := requestedIds body
  if ids.isEmpty then (CheckoutResp.badRequest, t)
  else
    match ids.find? (fun id => (registry id).isNone) with
    | some missing => (CheckoutResp.notFound missing, t)
    | none =>
      if !stripeCfg then (CheckoutResp.okMock mockId, mapSet t mockId ⟨ids, true⟩)
      else (CheckoutResp.okGateway gatewayId, mapSet t gatewayId ⟨ids, false⟩)

/-! ### POST webhook (src/routes/payment.js)

Signature verification by the gateway SDK is modelled by its outcome: none
when constructEvent throws on a bad signature, some event when it verifies. -/

structure StripeEvent where
  evType : String
  sessionId : String
deriving DecidableEq, Repr

inductive WebhookResp
  | serverErr
  | badReq
  | received
deriving DecidableEq, Repr

/-- Embeds the webhook handler: 500 when the gateway is unconfigured, 400
when the webhook secret is missing, 400 leaving the table alone when
verification fails; a verified checkout.session.completed event marks the
named session paid when it is in the table, any other event type is ignored. -/
def webhookRoute (stripeCfg secretCfg : Bool) (verified : Option StripeEvent)
    (t : SessionTable) : WebhookResp × SessionTable :=
  if !stripeCfg then (WebhookResp.serverErr, t)
  else if !secretCfg then (WebhookResp.badReq, t)
  else
    match verified with
    | none => (WebhookResp.badReq, t)
    | some ev =>
      if ev.evType = "checkout.session.completed" then
        match mapGet t ev.sessionId with
        | some rec => (WebhookResp.received, mapSet t ev.sessionId ⟨rec.imageIds, true⟩)
        | none => (WebhookResp.received, t)
      else (WebhookResp.received, t)

/-! ### GET download (src/routes/payment.js) -/

/-- Embeds the themeNames table of the download handler in
src/routes/payment.js. -/
def themeDisplayName (theme : String) : Option String :=
  if theme = "renaissance" then some "Renaissance"
  else if theme = "vangogh" then some "VanGogh"
  else if theme = "ghibli" then some "StudioGhibli"
  else if theme = "disney" then some "DisneyPixar"
  else if theme = "anime" then some "Anime"
  else if theme = "watercolor" then some "Watercolor"
  else none

/-- Embeds the archive entry naming: themeNames of the stored theme, with the
generic Portrait label when the theme is missing or unknown. -/
def zipEntryName (theme : Option String) : String :=
  "Valentine-Portrait-" ++ ((theme.bind themeDisplayName).getD "Portrait") ++ ".jpg"

/-- Embeds fetchImage of the download handler: resolve the registry entry and
its stored URL (throwing, modelled as none, when either is missing), then
fetch the bytes over the network oracle. -/
def fetchImage (registry : String → Option Meta) (net : String → Option Buffer)
    (id : String) : Option (Buffer × Option String) :=
  match registry id with
  | none => none
  | some m =>
    match m.imageUrl with
    | none => none
    | some url => (net url).map (fun b => (b, m.theme))

structure GatewaySession where
  paymentStatus : String
  metaImageIds : List String
deriving DecidableEq, Repr

inductive DlResp
  | notFound
  | serverErr
  | payRequired
  | single (bytes : Buffer)
  | zipArchive (entries : List (String × Buffer))
deriving DecidableEq, Repr

/-- Embeds the materialization tail of the download handler: 404 on an empty
id list, the bare image for a single id (a fetch failure there escapes to
the catch-all 500), and for several ids the archive built by appending one
named entry per id whose fetch succeeded, skipping the failed ones. -/
def dlMaterialize (registry : String → Option Meta) (net : String → Option Buffer) :
    List String → DlResp
  | [] => DlResp.notFound
  | [id] =>
    match fetchImage registry net id with
    | none => DlResp.serverErr
    | some (b, _) => DlResp.single b
  | ids =>
    DlResp.zipArchive (ids.filterMap (fun id =>
      (fetchImage registry net id).map (fun p => (zipEntryName p.2, p.1))))

/-- Embeds the download handler of src/routes/payment.js: a mock session id
is resolved in the local table with no payment check (404 when absent); a
gateway id requires the gateway to be configured (500), the gateway lookup to
succeed (a retrieve failure escapes to the catch-all 500) and the gateway to
report the session paid (402), its id list coming from the gateway session
metadata. -/
def downloadRoute (t : SessionTable) (stripeCfg : Bool)
    (gateway : String → Option GatewaySession) (registry : String → Option Meta)
    (net : String → Option Buffer) (sessionId : String) : DlResp :=
  if isMockId sessionId then
    match mapGet t sessionId with
    | none => DlResp.notFound
    | some sd => dlMaterialize registry net sd.imageIds
  else if !stripeCfg then DlResp.serverErr
  else
    match gateway sessionId with
    | none => DlResp.serverErr
    | some gs =>
      if gs.paymentStatus ≠ "paid" then DlResp.payRequired
      else dlMaterialize registry net gs.metaImageIds

/-! ### GET images (src/routes/generate.js, concatenated payment router copy) -/

def supabasePublicBase : String :=
  "https://storage.example/object/public/images"

/-- Embeds constructImageUrl: split the id on underscores; with at least two
parts rebuild the uuid from all but the last part and take the last part as
the style, forming the deterministic per-session storage URL; otherwise no
URL can be constructed. -/
def constructImageUrl (imageId : String) : Option String :=
  let parts := imageId.splitOn "_"
  if 2 ≤ parts.length then
    some (supabasePublicBase ++ "/valentines/"
      ++ String.intercalate "_" parts.dropLast ++ "/" ++ parts.getLastD "" ++ ".jpg")
  else none

/-- Embeds extractStyle: the part after the last underscore. -/
def extractStyle (imageId : String) : String :=
  (imageId.splitOn "_").getLastD ""

structure ImgEntry where
  imageId : String
  imageUrl : String
  style : String
deriving DecidableEq, Repr

inductive ImagesResp
  | notFound
  | serverErr
  | payRequired
  | ok (images : List ImgEntry)
deriving DecidableEq, Repr

/-- Embeds the per-id resolution of the images handler: style from the
registry theme else parsed from the id, URL from the registry else
reconstructed from the id convention, dropping entries with no URL. -/
def resolveImages (registry : String → Option Meta) (ids : List String) :
    List ImgEntry :=
  ids.filterMap (fun id =>
    let m := registry id
    let style := (m.bind Meta.theme).getD (extractStyle id)
    let url? := (m.bind Meta.imageUrl).orElse (fun _ => constructImageUrl id)
    url?.map (fun u => ⟨id, u, style⟩))

/-- Embeds the images handler of src/routes/generate.js: mock ids resolve in
the local table (404 when absent, no payment check); gateway ids require the
gateway configured (500), the lookup to succeed (500) and the session paid
(402), the id list coming from the gateway session metadata. -/
def imagesRoute (t : SessionTable) (stripeCfg : Bool)
    (gateway : String → Option GatewaySession) (registry : String → Option Meta)
    (sessionId : String) : ImagesResp :=
  if isMockId sessionId then
    match mapGet t sessionId with
    | none => ImagesResp.notFound
    | some sd => ImagesResp.ok (resolveImages registry sd.imageIds)
  else if !stripeCfg then ImagesResp.serverErr
  else
    match gateway sessionId with
    | none => ImagesResp.serverErr
    | some gs =>
      if gs.paymentStatus ≠ "paid" then ImagesResp.payRequired
      else ImagesResp.ok (resolveImages registry gs.metaImageIds)

/-! ### POST generate (src/routes/generate.js) -/

structure UploadedFile where
  originalname : String
  mimetype : String
  bytes : Buffer
deriving DecidableEq, Repr

structure GenRequest where
  file : Option UploadedFile
  theme : Option String
deriving DecidableEq, Repr

inductive GenRouteResp
  | badRequest (msg : String)
  | serverErr
  | ok (imageId imageUrl theme : String)
deriving DecidableEq, Repr

def validThemes : List String :=
  ["renaissance", "vangogh", "ghibli", "disney", "anime", "watercolor"]

/-- Embeds the generate handler of src/routes/generate.js: 400 when no file
was uploaded, 400 when no theme was selected, 400 when the theme is not in
the valid list; then the pipeline runs (oracle for generatePortrait), a
pipeline failure giving 500 and success recording metadata and answering
with success, imageId, imageUrl and theme. -/
def generateRoute (pipeline : Buffer → String → Except String (String × String))
    (registry : String → Option Meta) (req : GenRequest) :
    GenRouteResp × (String → Option Meta) :=
  match req.file with
  | none => (GenRouteResp.badRequest "No image file provided", registry)
  | some f =>
    match req.theme with
    | none => (GenRouteResp.badRequest "No theme selected", registry)
    | some theme =>
      if !(validThemes.contains theme) then
        (GenRouteResp.badRequest "Invalid theme", registry)
      else
        match pipeline f.bytes theme with
        | Except.error _ => (GenRouteResp.serverErr, registry)
        | Except.ok (imageId, imageUrl) =>
          (GenRouteResp.ok imageId imageUrl theme,
           fun id => if id = imageId then some ⟨some imageUrl, some theme⟩ else registry id)

/-! ### The fulfillment operation model (for the paid-flag invariant)

The operations that can touch the checkout-session table: the two creation
paths, webhook delivery, download and status queries (both read-only in the
code).  Gateway creation carries the id the gateway minted; a run is
admissible when every gateway-minted id is fresh at its point of use, which
the gateway guarantees. -/

inductive FulfillOp
  | createMock (id : String) (ids : List String)
  | createGateway (id : String) (ids : List String)
  | webhookEvent (verified : Bool) (evType : String) (sessionId : String)
  | download (sessionId : String)
  | statusQuery (sessionId : String)
deriving DecidableEq, Repr

/-- Embeds the effect of each operation on the checkout-session table. -/
def stepOp (t : SessionTable) : FulfillOp → SessionTable
  | FulfillOp.createMock id ids => mapSet t id ⟨ids, true⟩
  | FulfillOp.createGateway id ids => mapSet t id ⟨ids, false⟩
  | FulfillOp.webhookEvent verified evType sid =>
    if verified ∧ evType = "checkout.session.completed" then
      match mapGet t sid with
      | some rec => mapSet t sid ⟨rec.imageIds, true⟩
      | none => t
    else t
  | FulfillOp.download _ => t
  | FulfillOp.statusQuery _ => t

def runOps (t : SessionTable) : List FulfillOp → SessionTable
  | [] => t
  | op :: rest => runOps (stepOp t op) rest

/-- An operation respects gateway id freshness when any gateway-minted
session id is not already in the table. -/
def opFresh (t : SessionTable) : FulfillOp → Bool
  | FulfillOp.createGateway id _ => (mapGet t id).isNone
  | _ => true

def freshRun (t : SessionTable) : List FulfillOp → Bool
  | [] => true
  | op :: rest => opFresh t op && freshRun (stepOp t op) rest

/-- The paid flag the table reports for a session id. -/
def paidAt (t : SessionTable) (s : String) : Bool :=
  match mapGet t s with
  | some rec => rec.paid
  | none => false

/-- Two tables that agree except possibly on the stored paid flag of one
entry: the runs the hyperproperty claim compares. -/
def setPaid (t : SessionTable) (k : String) (b : Bool) : SessionTable :=
  match mapGet t k with
  | none => t
  | some rec => mapSet t k ⟨rec.imageIds, b⟩

/-! ### Helper lemmas -/

theorem encodeJpeg_len (q : Nat) (img : Img) : 0 < (encodeJpeg q img).length := by
  simp [encodeJpeg]

theorem synthesize_of_not_configured (resp : GemResponse) (processed : Img)
    (theme : String) :
    synthesize false resp processed theme = encodeJpeg 90 (sharpTransform theme processed) := by
  simp [synthesize]

theorem synthesize_is_encode (gemCfg : Bool) (resp : GemResponse) (processed : Img)
    (theme : String) :
    ∃ img, synthesize gemCfg resp processed theme = encodeJpeg 90 img := by
  unfold synthesize
  rcases hA : (if gemCfg then
      match generateWithGemini true resp with
      | Except.ok bytes => decodeJpeg bytes
      | Except.error _ => none
    else none) with _ | img
  · exact ⟨_, by rw [hA]⟩
  · exact ⟨_, by rw [hA]⟩

theorem synthesizePackStyle_is_encode (gemCfg : Bool) (resp : GemResponse)
    (processed : Img) (style : String) :
    ∃ img, synthesizePackStyle gemCfg resp processed style = encodeJpeg 95 img := by
  unfold synthesizePackStyle
  rcases hA : generateWithGemini gemCfg resp with e | bytes
  · exact ⟨tintImg (packTint style) (modulate 110 120 (resizeCover 2160 3840 processed)),
      by simp⟩
  · rcases hD : decodeJpeg bytes with _ | img
    · exact ⟨tintImg (packTint style) (modulate 110 120 (resizeCover 2160 3840 processed)),
        by simp [hD]⟩
    · exact ⟨resizeCover 2160 3840 img, by simp [hD]⟩

/-! ### Claim C1 -/

/-- Claim C1: for every preprocessed input and supported style, the
synthesize step returns a non-empty output buffer; when the generative
provider is unconfigured, errors, or returns no image part, the deterministic
style-specific filter fallback is applied to the preprocessed image instead;
and once normalization has succeeded, the only remaining caller-visible
failure point of generatePortrait is the storage upload: whenever the upload
succeeds the whole run succeeds, for every provider behaviour. -/
theorem c1_synthesize_fallback_totality (gemCfg : Bool) (resp : GemResponse)
    (processed : Img) (theme style : String) (preOutcome : Except String Img)
    (storageCfg : Bool) (transportErr : Option String) (store : Store)
    (imageId : String) :
    0 < (synthesize gemCfg resp processed theme).length
    ∧ 0 < (synthesizePackStyle gemCfg resp processed style).length
    ∧ (gemCfg = false →
        synthesize gemCfg resp processed theme
          = encodeJpeg 90 (sharpTransform theme processed))
    ∧ (∀ e, resp = Except.error e →
        synthesize gemCfg resp processed theme
            = encodeJpeg 90 (sharpTransform theme processed)
        ∧ synthesizePackStyle gemCfg resp processed style
            = encodeJpeg 95 (tintImg (packTint style)
                (modulate 110 120 (resizeCover 2160 3840 processed))))
    ∧ (∀ parts, resp = Except.ok parts → firstInlineData parts = none →
        synthesize gemCfg resp processed theme
            = encodeJpeg 90 (sharpTransform theme processed)
        ∧ synthesizePackStyle gemCfg resp processed style
            = encodeJpeg 95 (tintImg (packTint style)
                (modulate 110 120 (resizeCover 2160 3840 processed))))
    ∧ (∀ img url st, preOutcome = Except.ok img →
        uploadToSupabase storageCfg transportErr store
            (synthesize gemCfg resp img theme) imageId none = Except.ok (url, st) →
        generatePortraitRun preOutcome gemCfg resp theme storageCfg transportErr
            store imageId = Except.ok (imageId, url, st)) := by
  refine ⟨?_, ?_, ?_, ?_, ?_, ?_⟩
  · obtain ⟨img, h⟩ := synthesize_is_encode gemCfg resp processed theme
    rw [h]; exact encodeJpeg_len 90 img
  · obtain ⟨img, h⟩ := synthesizePackStyle_is_encode gemCfg resp processed style
    rw [h]; exact encodeJpeg_len 95 img
  · intro h; subst h; exact synthesize_of_not_configured resp processed theme
  · intro e he; subst he
    constructor
    · cases gemCfg <;> simp [synthesize, generateWithGemini]
    · cases gemCfg <;> simp [synthesizePackStyle, generateWithGemini]
  · intro parts hp hf; subst hp
    constructor
    · cases gemCfg <;> simp [synthesize, generateWithGemini, hf]
    · cases gemCfg <;> simp [synthesizePackStyle, generateWithGemini, hf]
  · intro img url st hpre hup
    subst hpre
    simp [generatePortraitRun, hup]

/-- A concrete one-pixel image used by the witnesses. -/
def imgEx : Img := ⟨1, 1, [⟨10, 20, 30⟩]⟩

/-- Witness for claim C1 at a concrete input: provider unconfigured and
erroring, one-pixel processed image, empty store. -/
theorem c1_synthesize_fallback_totality_witness :
    0 < (synthesize false (Except.error "down") imgEx "watercolor").length
    ∧ synthesize false (Except.error "down") imgEx "watercolor"
        = encodeJpeg 90 (sharpTransform "watercolor" imgEx)
    ∧ generatePortraitRun (Except.ok imgEx) false (Except.error "down") "watercolor"
        true none [] "id0"
        = Except.ok ("id0", publicUrl (uploadPath "id0" none),
            mapSet [] (uploadPath "id0" none)
              (synthesize false (Except.error "down") imgEx "watercolor")) :=
  ⟨(c1_synthesize_fallback_totality false (Except.error "down") imgEx "watercolor"
      "oil-painting" (Except.ok imgEx) true none [] "id0").1,
   (c1_synthesize_fallback_totality false (Except.error "down") imgEx "watercolor"
      "oil-painting" (Except.ok imgEx) true none [] "id0").2.2.1 rfl,
   (c1_synthesize_fallback_totality false (Except.error "down") imgEx "watercolor"
      "oil-painting" (Except.ok imgEx) true none [] "id0").2.2.2.2.2 imgEx
      (publicUrl (uploadPath "id0" none))
      (mapSet [] (uploadPath "id0" none)
        (synthesize false (Except.error "down") imgEx "watercolor")) rfl rfl⟩

theorem strAppendRightInj (s a b : String) (h : s ++ a = s ++ b) : a = b := by
  apply String.ext
  have hd := congrArg String.data h
  rw [String.data_append, String.data_append] at hd
  exact List.append_cancel_left hd

/-! ### Claim C2 -/

/-- Claim C2: a run of generatePortraitPack over the fixed style list of
length 3 produces exactly 3 results, in the declared style order, each with
artifactId sessionId_style and the three artifactIds pairwise distinct; the
event trace shows the inter-call pause exactly between consecutive styles,
neither before the first nor after the last. -/
theorem c2_pack_order_ids_pacing (sid : String) (hasObserver gemCfg : Bool)
    (resp : Nat → GemResponse) (processed : Img) (store : Store)
    (upErr : Nat → Option String)
    (h0 : upErr 0 = none) (h1 : upErr 1 = none) (h2 : upErr 2 = none) :
    (∃ stF, generatePortraitPack true upErr hasObserver gemCfg resp processed sid store
        = Except.ok (packEventsSpec hasObserver 3 0 packStyles, packItemsSpec sid, stF))
    ∧ (packItemsSpec sid).length = packStyles.length
    ∧ (packItemsSpec sid).map PackItem.style = packStyles
    ∧ (packItemsSpec sid).map PackItem.imageId
        = packStyles.map (fun s => sid ++ "_" ++ s)
    ∧ ((packItemsSpec sid).map PackItem.imageId).Nodup
    ∧ packEventsSpec hasObserver 3 0 packStyles
        = (if hasObserver then [PackEv.progress 1 3 "oil-painting"] else [])
          ++ [PackEv.generate "oil-painting", PackEv.upload "oil-painting", PackEv.pause]
          ++ (if hasObserver then [PackEv.progress 2 3 "studio-ghibli"] else [])
          ++ [PackEv.generate "studio-ghibli", PackEv.upload "studio-ghibli", PackEv.pause]
          ++ (if hasObserver then [PackEv.progress 3 3 "mona-lisa"] else [])
          ++ [PackEv.generate "mona-lisa", PackEv.upload "mona-lisa"] := by
  refine ⟨?_, by simp [packItemsSpec, packStyles], by simp [packItemsSpec, packStyles],
    by simp [packItemsSpec, packStyles], ?_, ?_⟩
  · refine ⟨mapSet (mapSet (mapSet store (uploadPath "oil-painting" (some sid))
        (synthesizePackStyle gemCfg (resp 0) processed "oil-painting"))
        (uploadPath "studio-ghibli" (some sid))
        (synthesizePackStyle gemCfg (resp 1) processed "studio-ghibli"))
        (uploadPath "mona-lisa" (some sid))
        (synthesizePackStyle gemCfg (resp 2) processed "mona-lisa"), ?_⟩
    simp [generatePortraitPack, packLoop, packStyles, uploadToSupabase, h0, h1, h2,
      packEventsSpec, packItemsSpec]
  · simp only [packItemsSpec, packStyles, List.map_cons, List.map_nil]
    refine List.nodup_cons.2 ⟨?_, List.nodup_cons.2 ⟨?_, List.nodup_cons.2 ⟨by simp, List.nodup_nil⟩⟩⟩
    · intro hmem
      rcases List.mem_cons.1 hmem with h | h
      · exact absurd (strAppendRightInj _ _ _ h) (by decide)
      · rcases List.mem_cons.1 h with h' | h'
        · exact absurd (strAppendRightInj _ _ _ h') (by decide)
        · simp at h'
    · intro hmem
      rcases List.mem_cons.1 hmem with h | h
      · exact absurd (strAppendRightInj _ _ _ h) (by decide)
      · simp at h
  · cases hasObserver <;> simp [packEventsSpec, packStyles]

/-- Witness for claim C2 at a concrete input: transport never errors. -/
theorem c2_pack_order_ids_pacing_witness :
    (∃ stF, generatePortraitPack true (fun _ => none) true false
        (fun _ => Except.error "down") imgEx "sess" []
        = Except.ok (packEventsSpec true 3 0 packStyles, packItemsSpec "sess", stF))
    ∧ ((packItemsSpec "sess").map PackItem.imageId).Nodup :=
  ⟨(c2_pack_order_ids_pacing "sess" true false (fun _ => Except.error "down") imgEx []
      (fun _ => none) rfl rfl rfl).1,
   (c2_pack_order_ids_pacing "sess" true false (fun _ => Except.error "down") imgEx []
      (fun _ => none) rfl rfl rfl).2.2.2.2.1⟩

theorem lookup_mapSet_self {α : Type} (t : List (String × α)) (k : String) (v : α) :
    mapGet (mapSet t k v) k = some v := by
  induction t with
  | nil => simp [mapSet, mapGet]
  | cons p rest ih =>
    obtain ⟨k', v'⟩ := p
    by_cases h : k' = k
    · subst h; simp [mapSet, mapGet]
    · simp [mapSet, mapGet, h, ih]

theorem lookup_mapSet_ne {α : Type} (t : List (String × α)) (k k' : String) (v : α)
    (h : k' ≠ k) : mapGet (mapSet t k v) k' = mapGet t k' := by
  induction t with
  | nil => simp [mapSet, mapGet, Ne.symm h]
  | cons p rest ih =>
    obtain ⟨ka, va⟩ := p
    by_cases hk : ka = k
    · subst hk; simp [mapSet, mapGet, Ne.symm h]
    · simp [mapSet, mapGet, hk, ih]

/-! ### Claim C3 -/

/-- Claim C3: create-checkout creates a session only when every referenced id
is in the metadata registry; when some id is unknown it answers 404 naming
that id and the session table is unchanged; with the gateway unconfigured the
recorded mock session is already paid, with it configured the recorded
gateway session is unpaid; and any session the handler newly records
references exactly the requested ids, all of which are in the registry. -/
theorem c3_checkout_registry_guard (registry : String → Option Meta)
    (stripeCfg : Bool) (body : CheckoutBody) (gid mid : String) (t : SessionTable) :
    (∀ missing,
        (requestedIds body).find? (fun id => (registry id).isNone) = some missing →
        createCheckout registry stripeCfg body gid mid t
          = (CheckoutResp.notFound missing, t))
    ∧ (requestedIds body ≠ [] →
        (∀ id ∈ requestedIds body, (registry id).isSome) →
        (stripeCfg = false →
            createCheckout registry stripeCfg body gid mid t
              = (CheckoutResp.okMock mid, mapSet t mid ⟨requestedIds body, true⟩)
            ∧ mapGet (createCheckout registry stripeCfg body gid mid t).2 mid
              = some ⟨requestedIds body, true⟩)
        ∧ (stripeCfg = true →
            createCheckout registry stripeCfg body gid mid t
              = (CheckoutResp.okGateway gid, mapSet t gid ⟨requestedIds body, false⟩)
            ∧ mapGet (createCheckout registry stripeCfg body gid mid t).2 gid
              = some ⟨requestedIds body, false⟩))
    ∧ (∀ sid rec, mapGet t sid = none →
        mapGet (createCheckout registry stripeCfg body gid mid t).2 sid = some rec →
        rec.imageIds = requestedIds body
        ∧ ∀ id ∈ rec.imageIds, (registry id).isSome) := by
  refine ⟨?_, ?_, ?_⟩
  · intro missing hm
    have hne : (requestedIds body).isEmpty = false := by
      cases h : requestedIds body
      · rw [h] at hm; simp at hm
      · simp [h]
    simp [createCheckout, hne, hm]
  · intro hne hall
    have hfind : (requestedIds body).find? (fun id => (registry id).isNone) = none := by
      rw [List.find?_eq_none]
      intro x hx
      have hx' := hall x hx
      simp [Option.isNone_iff_eq_none]
      exact Option.isSome_iff_ne_none.1 hx'
    have hne' : (requestedIds body).isEmpty = false := by
      cases h : requestedIds body
      · exact absurd h hne
      · simp [h]
    constructor
    · intro hs; subst hs
      refine ⟨by simp [createCheckout, hne', hfind], ?_⟩
      simp [createCheckout, hne', hfind, lookup_mapSet_self]
    · intro hs; subst hs
      refine ⟨by simp [createCheckout, hne', hfind], ?_⟩
      simp [createCheckout, hne', hfind, lookup_mapSet_self]
  · intro sid rec hnone hsome
    by_cases hempty : (requestedIds body).isEmpty
    · simp [createCheckout, hempty] at hsome
      rw [hnone] at hsome; exact absurd hsome (by simp)
    · rcases hfind : (requestedIds body).find? (fun id => (registry id).isNone) with _ | m
      · have hall : ∀ id ∈ requestedIds body, (registry id).isSome := by
          intro x hx
          have := List.find?_eq_none.1 hfind x hx
          simpa [Option.isNone_iff_eq_none, Option.isSome_iff_ne_none] using this
        cases hc : stripeCfg
        · simp [createCheckout, hempty, hfind, hc] at hsome
          by_cases hsid : sid = mid
          · subst hsid
            rw [lookup_mapSet_self] at hsome
            have hrec : rec = ⟨requestedIds body, true⟩ := by
              injection hsome with h; exact h.symm
            subst hrec
            exact ⟨rfl, hall⟩
          · rw [lookup_mapSet_ne _ _ _ _ hsid] at hsome
            rw [hnone] at hsome; exact absurd hsome (by simp)
        · simp [createCheckout, hempty, hfind, hc] at hsome
          by_cases hsid : sid = gid
          · subst hsid
            rw [lookup_mapSet_self] at hsome
            have hrec : rec = ⟨requestedIds body, false⟩ := by
              injection hsome with h; exact h.symm
            subst hrec
            exact ⟨rfl, hall⟩
          · rw [lookup_mapSet_ne _ _ _ _ hsid] at hsome
            rw [hnone] at hsome; exact absurd hsome (by simp)
      · simp [createCheckout, hempty, hfind] at hsome
        rw [hnone] at hsome; exact absurd hsome (by simp)

/-- A concrete registry for the witnesses: one known artifact id. -/
def regW : String → Option Meta :=
  fun id => if id = "a1" then some ⟨some "u1", some "ghibli"⟩ else none

/-- A concrete checkout body for the witnesses: the single-image form. -/
def bodyW : CheckoutBody := ⟨some "a1", none, false⟩

/-- Witness for claim C3 at concrete inputs: a known id creates an
already-paid mock session when the gateway is unconfigured; an unknown id is
rejected with 404 and the table is untouched. -/
theorem c3_checkout_registry_guard_witness :
    createCheckout regW false bodyW "gw1" "mock_1" []
      = (CheckoutResp.okMock "mock_1", mapSet [] "mock_1" ⟨["a1"], true⟩)
    ∧ createCheckout (fun _ => none) false bodyW "gw1" "mock_1" []
      = (CheckoutResp.notFound "a1", []) :=
  ⟨((c3_checkout_registry_guard regW false bodyW "gw1" "mock_1" []).2.1
      (by decide) (by decide)).1 rfl |>.1,
   (c3_checkout_registry_guard (fun _ => none) false bodyW "gw1" "mock_1" []).1
      "a1" (by decide)⟩

/-! ### Claim C4 -/

theorem paidAt_mapSet_true (t : SessionTable) (k s : String) (ids : List String)
    (hp : paidAt t s = true) : paidAt (mapSet t k ⟨ids, true⟩) s = true := by
  by_cases h : s = k
  · subst h; simp [paidAt, lookup_mapSet_self]
  · unfold paidAt at hp ⊢
    rw [lookup_mapSet_ne _ _ _ _ h]
    exact hp

theorem paidAt_step (t : SessionTable) (op : FulfillOp) (s : String)
    (hf : opFresh t op = true) (hp : paidAt t s = true) :
    paidAt (stepOp t op) s = true := by
  cases op with
  | createMock id ids =>
    simp only [stepOp]
    exact paidAt_mapSet_true t id s ids hp
  | createGateway id ids =>
    simp only [stepOp]
    have hne : s ≠ id := by
      intro he; subst he
      simp only [opFresh] at hf
      unfold paidAt at hp
      rcases hg : mapGet t s with _ | r
      · rw [hg] at hp; simp at hp
      · rw [hg] at hf; simp at hf
    unfold paidAt at hp ⊢
    rw [lookup_mapSet_ne _ _ _ _ hne]
    exact hp
  | webhookEvent v e sid =>
    simp only [stepOp]
    split
    · split
      · exact paidAt_mapSet_true t sid s _ hp
      · exact hp
    · exact hp
  | download sid => simpa [stepOp] using hp
  | statusQuery sid => simpa [stepOp] using hp

/-- Claim C4: the paid flag of a checkout session is monotonic: over any
sequence of checkout creations (with gateway-minted ids fresh, as the gateway
guarantees), webhook events of any type, downloads and status queries, a
session the table reports as paid is still reported paid afterwards; no
operation reverts paid to unpaid. -/
theorem c4_paid_monotonic (t : SessionTable) (ops : List FulfillOp) (s : String)
    (hfresh : freshRun t ops = true) (hpaid : paidAt t s = true) :
    paidAt (runOps t ops) s = true := by
  induction ops generalizing t with
  | nil => simpa [runOps] using hpaid
  | cons op rest ih =>
    simp only [runOps]
    simp only [freshRun, Bool.and_eq_true] at hfresh
    exact ih (stepOp t op) hfresh.2 (paidAt_step t op s hfresh.1 hpaid)

/-- Witness for claim C4 at a concrete run: a paid mock session stays paid
across a gateway creation, an unrelated webhook event, a download and a
status query. -/
theorem c4_paid_monotonic_witness :
    paidAt (runOps [("mock_1", ⟨["a1"], true⟩)]
      [FulfillOp.createGateway "cs_1" ["a1"],
       FulfillOp.webhookEvent true "charge.refunded" "mock_1",
       FulfillOp.download "mock_1", FulfillOp.statusQuery "cs_1"]) "mock_1" = true :=
  c4_paid_monotonic [("mock_1", ⟨["a1"], true⟩)]
    [FulfillOp.createGateway "cs_1" ["a1"],
     FulfillOp.webhookEvent true "charge.refunded" "mock_1",
     FulfillOp.download "mock_1", FulfillOp.statusQuery "cs_1"] "mock_1"
    (by decide) (by decide)

/-! ### Claim C5 -/

/-- Claim C5: with the gateway and the webhook secret configured, a webhook
request whose signature fails verification is answered 400 and the
checkout-session table is left exactly as it was. -/
theorem c5_webhook_bad_signature_atomic (t : SessionTable) :
    webhookRoute true true none t = (WebhookResp.badReq, t) := by
  simp [webhookRoute]

/-! ### Claim C6 -/

theorem dlMaterialize_ne_payRequired (registry : String → Option Meta)
    (net : String → Option Buffer) (ids : List String) :
    dlMaterialize registry net ids ≠ DlResp.payRequired := by
  match ids with
  | [] => simp [dlMaterialize]
  | [id] =>
    simp only [dlMaterialize]
    rcases hf : fetchImage registry net id with _ | p
    · simp
    · obtain ⟨b, th⟩ := p; simp
  | a :: b :: rest => simp [dlMaterialize]

/-- Claim C6: on a gateway-backed session the download is permitted only when
the gateway reports the session paid, otherwise 402; mock sessions found in
the table are never payment-gated; a paid session with three artifact ids
yields an archive with exactly three entries named through the
style-to-display-name table (unknown or missing styles mapping to the generic
label); and a failed fetch omits only its own entry. -/
theorem c6_download_gating_and_archive (t : SessionTable)
    (gateway : String → Option GatewaySession) (registry : String → Option Meta)
    (net : String → Option Buffer) (sid : String) (gs : GatewaySession)
    (a b c : String) (hm : isMockId sid = false) (hg : gateway sid = some gs) :
    (gs.paymentStatus ≠ "paid" →
        downloadRoute t true gateway registry net sid = DlResp.payRequired)
    ∧ (gs.paymentStatus = "paid" → gs.metaImageIds = [a, b, c] →
        (∀ ba ta bb tb bc tc,
          fetchImage registry net a = some (ba, ta) →
          fetchImage registry net b = some (bb, tb) →
          fetchImage registry net c = some (bc, tc) →
          downloadRoute t true gateway registry net sid
            = DlResp.zipArchive [(zipEntryName ta, ba), (zipEntryName tb, bb),
                (zipEntryName tc, bc)])
        ∧ (∀ ba ta bc tc,
          fetchImage registry net a = some (ba, ta) →
          fetchImage registry net b = none →
          fetchImage registry net c = some (bc, tc) →
          downloadRoute t true gateway registry net sid
            = DlResp.zipArchive [(zipEntryName ta, ba), (zipEntryName tc, bc)]))
    ∧ (∀ sid' sd, isMockId sid' = true → mapGet t sid' = some sd →
        downloadRoute t true gateway registry net sid' ≠ DlResp.payRequired)
    ∧ zipEntryName (some "cubism") = "Valentine-Portrait-Portrait.jpg"
    ∧ zipEntryName none = "Valentine-Portrait-Portrait.jpg"
    ∧ zipEntryName (some "vangogh") = "Valentine-Portrait-VanGogh.jpg" := by
  refine ⟨?_, ?_, ?_, by simp [zipEntryName, themeDisplayName], by simp [zipEntryName],
    by simp [zipEntryName, themeDisplayName]⟩
  · intro hnp
    simp [downloadRoute, hm, hg, hnp]
  · intro hpaid hids
    constructor
    · intro ba ta bb tb bc tc hfa hfb hfc
      simp [downloadRoute, hm, hg, hpaid, hids, dlMaterialize, hfa, hfb, hfc]
    · intro ba ta bc tc hfa hfb hfc
      simp [downloadRoute, hm, hg, hpaid, hids, dlMaterialize, hfa, hfb, hfc]
  · intro sid' sd h1 h2
    simp only [downloadRoute, h1, h2, if_true]
    exact dlMaterialize_ne_payRequired registry net sd.imageIds

/-- A concrete registry for the C6 witness: three artifacts, one with a
display-named style, one legacy style, one unknown style. -/
def regW6 : String → Option Meta := fun id =>
  if id = "a1" then some ⟨some "u1", some "renaissance"⟩
  else if id = "a2" then some ⟨some "u2", some "vangogh"⟩
  else if id = "a3" then some ⟨some "u3", some "weird"⟩ else none

/-- A concrete network oracle for the C6 witness. -/
def netW : String → Option Buffer := fun u =>
  if u = "u1" then some [1] else if u = "u2" then some [2]
  else if u = "u3" then some [3] else none

/-- A concrete gateway oracle for the C6 witness: one paid and one unpaid
session. -/
def gwW : String → Option GatewaySession := fun s =>
  if s = "cs_paid" then some ⟨"paid", ["a1", "a2", "a3"]⟩
  else if s = "cs_unpaid" then some ⟨"unpaid", ["a1"]⟩ else none

/-- Witness for claim C6 at concrete inputs: the paid 3-artifact session
yields the 3-entry archive with table-derived names; the unpaid session is
answered 402. -/
theorem c6_download_gating_and_archive_witness :
    downloadRoute [] true gwW regW6 netW "cs_paid"
      = DlResp.zipArchive [(zipEntryName (some "renaissance"), [1]),
          (zipEntryName (some "vangogh"), [2]), (zipEntryName (some "weird"), [3])]
    ∧ downloadRoute [] true gwW regW6 netW "cs_unpaid" = DlResp.payRequired :=
  ⟨(((c6_download_gating_and_archive [] gwW regW6 netW "cs_paid"
        ⟨"paid", ["a1", "a2", "a3"]⟩ "a1" "a2" "a3" (by decide) (by decide)).2.1
      rfl rfl).1) [1] (some "renaissance") [2] (some "vangogh") [3] (some "weird")
      (by decide) (by decide) (by decide),
   (c6_download_gating_and_archive [] gwW regW6 netW "cs_unpaid"
        ⟨"unpaid", ["a1"]⟩ "a1" "a1" "a1" (by decide) (by decide)).1 (by decide)⟩

/-! ### Claim C7 -/

theorem keys_mapSet_mapSet_same {α : Type} (t : List (String × α)) (k : String)
    (v1 v2 : α) :
    (mapSet (mapSet t k v1) k v2).map Prod.fst = (mapSet t k v1).map Prod.fst := by
  induction t with
  | nil => simp [mapSet]
  | cons p rest ih =>
    obtain ⟨k', v'⟩ := p
    by_cases h : k' = k
    · subst h; simp [mapSet]
    · simp [mapSet, h, ih]

/-- Claim C7: uploading twice under the same artifact id succeeds both times,
returns the same public URL both times (the URL is a deterministic function
of the path derived from the id), and the second upload upserts in place: the
set of storage keys after the second upload equals the set after the first,
so no second key is created. -/
theorem c7_upload_idempotent (store : Store) (buf1 buf2 : Buffer)
    (imageId : String) (subfolder : Option String) :
    uploadToSupabase true none store buf1 imageId subfolder
      = Except.ok (publicUrl (uploadPath imageId subfolder),
          mapSet store (uploadPath imageId subfolder) buf1)
    ∧ uploadToSupabase true none (mapSet store (uploadPath imageId subfolder) buf1)
        buf2 imageId subfolder
      = Except.ok (publicUrl (uploadPath imageId subfolder),
          mapSet (mapSet store (uploadPath imageId subfolder) buf1)
            (uploadPath imageId subfolder) buf2)
    ∧ (mapSet (mapSet store (uploadPath imageId subfolder) buf1)
          (uploadPath imageId subfolder) buf2).map Prod.fst
      = (mapSet store (uploadPath imageId subfolder) buf1).map Prod.fst := by
  refine ⟨by simp [uploadToSupabase], by simp [uploadToSupabase], ?_⟩
  exact keys_mapSet_mapSet_same store (uploadPath imageId subfolder) buf1 buf2

/-! ### Claim C8 -/

/-- A 12-byte buffer carrying the heic brand signature at offsets 8 to 12. -/
def heicBufEx : Buffer := [0, 0, 0, 24, 102, 116, 121, 112, 104, 101, 105, 99]

/-- A conversion oracle that always fails. -/
def heicConvFail : Buffer → Except String Buffer :=
  fun _ => Except.error "conversion failed"

/-- A re-encode oracle that never fails. -/
def sharpAlwaysOk : Buffer → Except String Buffer := fun b => Except.ok b

/-- Claim C8 counterexample: on a buffer carrying the heic signature whose
conversion fails, the Normalizer fails even though the re-encode step never
fails anywhere; so normalize does not fail exactly when re-encoding fails
with no conversion having occurred. -/
theorem c8_normalizer_counterexample :
    isHeic heicBufEx = true
    ∧ isErr (sharpAlwaysOk heicBufEx) = false
    ∧ preprocessImage heicConvFail sharpAlwaysOk heicBufEx
        = Except.error "conversion failed" :=
  ⟨by decide, rfl, rfl⟩

/-- Claim C8 amended: detection of the legacy container is solely a function
of the first 12 header bytes (never extension or MIME type, which are not
even inputs); when signature-based conversion succeeded and the re-encode
step fails, the converted-but-not-re-encoded bytes are returned; and
normalization fails exactly when either the signature-based conversion itself
fails, or re-encoding fails and no conversion had occurred. -/
theorem c8_normalizer_amended (hc sp : Buffer → Except String Buffer)
    (buf b1 b2 : Buffer) :
    (b1.take 12 = b2.take 12 → isHeic b1 = isHeic b2)
    ∧ (∀ conv e, isHeic buf = true → hc buf = Except.ok conv →
        sp conv = Except.error e → preprocessImage hc sp buf = Except.ok conv)
    ∧ (isErr (preprocessImage hc sp buf) = true ↔
        (isHeic buf = true ∧ isErr (hc buf) = true)
        ∨ (isHeic buf = false ∧ isErr (sp buf) = true)) := by
  refine ⟨?_, ?_, ?_⟩
  · intro h
    have hlen : b1.length < 12 ↔ b2.length < 12 := by
      have h1 := congrArg List.length h
      rw [List.length_take, List.length_take] at h1
      omega
    have hseg : (b1.drop 8).take 4 = (b2.drop 8).take 4 := by
      have e1 : (b1.take 12).drop 8 = (b1.drop 8).take 4 := by
        simpa using List.drop_take 12 8 b1
      have e2 : (b2.take 12).drop 8 = (b2.drop 8).take 4 := by
        simpa using List.drop_take 12 8 b2
      rw [← e1, ← e2, h]
    by_cases hl : b1.length < 12
    · have hl2 : b2.length < 12 := hlen.1 hl
      simp [isHeic, hl, hl2]
    · have hl2 : ¬b2.length < 12 := fun hx => hl (hlen.2 hx)
      simp [isHeic, hl, hl2, hseg]
  · intro conv e h1 h2 h3
    simp [preprocessImage, h1, h2, h3]
  · cases hh : isHeic buf
    · rcases hs : sp buf with e | p <;> simp [preprocessImage, hh, hs, isErr]
    · rcases hcv : hc buf with e | conv
      · simp [preprocessImage, hh, hcv, isErr]
      · rcases hs : sp conv with e | p <;> simp [preprocessImage, hh, hcv, hs, isErr]

/-- A conversion oracle that succeeds with a fixed byte. -/
def heicConvOk : Buffer → Except String Buffer := fun _ => Except.ok [9]

/-- A re-encode oracle that always fails. -/
def sharpAlwaysFail : Buffer → Except String Buffer :=
  fun _ => Except.error "unsupported"

/-- Witness for the amended claim C8 at concrete inputs: conversion succeeded
and re-encode fails, so the converted bytes come back. -/
theorem c8_normalizer_amended_witness :
    preprocessImage heicConvOk sharpAlwaysFail heicBufEx = Except.ok [9] :=
  (c8_normalizer_amended heicConvOk sharpAlwaysFail heicBufEx [] []).2.1 [9]
    "unsupported" (by decide) rfl rfl

/-! ### Claim C9 -/

/-- A concrete uploaded image file for the C9 theorems. -/
def fileW : UploadedFile := ⟨"a.jpg", "image/jpeg", [1, 2, 3]⟩

/-- A pipeline oracle that always succeeds. -/
def okPipeline : Buffer → String → Except String (String × String) :=
  fun _ _ => Except.ok ("id1", "url1")

/-- Claim C9 counterexample: a request carrying a valid image file but no
theme field is answered 400 with the no-theme message, so the style selector
is not optional and 400 does not occur only on a missing file or an
unrecognized style. -/
theorem c9_generate_route_counterexample :
    (generateRoute okPipeline (fun _ => none) ⟨some fileW, none⟩).1
      = GenRouteResp.badRequest "No theme selected"
    ∧ (⟨some fileW, none⟩ : GenRequest).file.isSome = true :=
  ⟨rfl, rfl⟩

/-- Claim C9 amended: the theme field is required; 400 is returned exactly
when the image file is missing, the theme is missing, or the theme is not in
the valid list; a successful run answers with success, imageId, imageUrl and
the theme (a single image, not a sessionId with an images list); a pipeline
failure is answered 500. -/
theorem c9_generate_route_amended
    (pipeline : Buffer → String → Except String (String × String))
    (registry : String → Option Meta) (req : GenRequest) :
    ((∃ msg, (generateRoute pipeline registry req).1 = GenRouteResp.badRequest msg) ↔
      req.file = none ∨ req.theme = none
      ∨ (∃ th, req.theme = some th ∧ validThemes.contains th = false))
    ∧ (∀ f th i u, req.file = some f → req.theme = some th →
        validThemes.contains th = true → pipeline f.bytes th = Except.ok (i, u) →
        (generateRoute pipeline registry req).1 = GenRouteResp.ok i u th)
    ∧ (∀ f th e, req.file = some f → req.theme = some th →
        validThemes.contains th = true → pipeline f.bytes th = Except.error e →
        (generateRoute pipeline registry req).1 = GenRouteResp.serverErr) := by
  obtain ⟨file, theme⟩ := req
  refine ⟨?_, ?_, ?_⟩
  · cases file with
    | none => simp [generateRoute]
    | some f =>
      cases theme with
      | none => simp [generateRoute]
      | some th =>
        cases hv : validThemes.contains th
        · have hv' : th ∉ validThemes := by simpa using hv
          simp [generateRoute, hv, hv']
        · have hv' : th ∈ validThemes := by simpa using hv
          rcases hp : pipeline f.bytes th with e | p
          · simp [generateRoute, hv, hv', hp]
          · obtain ⟨i, u⟩ := p
            simp [generateRoute, hv, hv', hp]
  · intro f th i u h1 h2 h3 h4
    cases h1; cases h2
    have hv' : th ∈ validThemes := by simpa using h3
    simp [generateRoute, hv', h4]
  · intro f th e h1 h2 h3 h4
    cases h1; cases h2
    have hv' : th ∈ validThemes := by simpa using h3
    simp [generateRoute, hv', h4]

/-- Witness for the amended claim C9 at concrete inputs: a valid file with a
valid theme succeeds with the single-image response shape. -/
theorem c9_generate_route_amended_witness :
    (generateRoute okPipeline (fun _ => none) ⟨some fileW, some "ghibli"⟩).1
      = GenRouteResp.ok "id1" "url1" "ghibli" :=
  (c9_generate_route_amended okPipeline (fun _ => none)
      ⟨some fileW, some "ghibli"⟩).2.1 fileW "ghibli" "id1" "url1" rfl rfl
    (by decide) rfl

/-! ### Claim C10 -/

/-- Claim C10: for a non-mock (gateway-backed) session id, the download and
images responses are determined by the gateway lookup alone: flipping the
locally stored paid flag of any checkout-session table entry leaves both
responses unchanged, because the local flag is only read for mock ids. -/
theorem c10_gateway_paths_ignore_local_paid (t : SessionTable) (k : String)
    (b stripeCfg : Bool) (gateway : String → Option GatewaySession)
    (registry : String → Option Meta) (net : String → Option Buffer)
    (sid : String) (hm : isMockId sid = false) :
    downloadRoute (setPaid t k b) stripeCfg gateway registry net sid
      = downloadRoute t stripeCfg gateway registry net sid
    ∧ imagesRoute (setPaid t k b) stripeCfg gateway registry sid
      = imagesRoute t stripeCfg gateway registry sid := by
  constructor
  · simp [downloadRoute, hm]
  · simp [imagesRoute, hm]

/-- Witness for claim C10 at concrete inputs: marking the only table entry
paid does not change the gateway-backed responses. -/
theorem c10_gateway_paths_ignore_local_paid_witness :
    downloadRoute (setPaid [("mock_1", ⟨["a1"], false⟩)] "mock_1" true) true
        gwW regW6 netW "cs_paid"
      = downloadRoute [("mock_1", ⟨["a1"], false⟩)] true gwW regW6 netW "cs_paid"
    ∧ imagesRoute (setPaid [("mock_1", ⟨["a1"], false⟩)] "mock_1" true) true
        gwW regW6 "cs_paid"
      = imagesRoute [("mock_1", ⟨["a1"], false⟩)] true gwW regW6 "cs_paid" :=
  c10_gateway_paths_ignore_local_paid [("mock_1", ⟨["a1"], false⟩)] "mock_1"
    true true gwW regW6 netW "cs_paid" (by decide)

end Valentine
